import Mathlib

/-!
Verification development for the LLMSender task pipeline.

The definitions below are a shallow embedding of the Python sources:
`core/utils.py` (retry_with_backoff), `core/plugin_loader.py`
(PluginLoader.load_plugin and PluginLoader._find_plugin_class),
`main.py` (LLMSenderApp.execute_task and LLMSenderApp.execute_pack_task),
and `message_notice/bark.py` / `message_notice/telegram.py` (the
notifier send bodies).  Stateful Python code is modelled by explicit
event traces; exceptions by an explicit outcome type.
-/

namespace LLMSender

/-- Outcome of one Python call: either a returned value or a raised
exception of type ε.  Only Exception subclasses are modelled; a
BaseException such as KeyboardInterrupt is outside the model. -/
inductive FuncOutcome (α ε : Type) where
  | ok (v : α)
  | raise (e : ε)
  deriving DecidableEq, Repr

/-- Observable events of one run of the wrapper produced by
retry_with_backoff (core/utils.py lines 61-98): each invocation of the
wrapped function, each invocation point of the optional on_retry
callback (with the argument the code passes, attempt + 1), and each
backoff sleep with its duration in seconds. -/
inductive RetryEvent (ε : Type) where
  | call (attempt : Nat)
  | onRetry (arg : Nat) (e : ε)
  | sleep (d : ℚ)
  deriving DecidableEq, Repr

/-- Final outcome of the wrapper: a returned value, a raised exception
(either a non-retryable one propagating from the body, or the final
raise last_exception), or the TypeError Python raises for
raise None when the attempt loop never ran and last_exception is
still None. -/
inductive RetryResult (α ε : Type) where
  | ok (v : α)
  | raised (e : ε)
  | raiseNoneTypeError
  deriving DecidableEq, Repr

/-- Trace of one run of the retry wrapper. -/
structure RetryTrace (α ε : Type) where
  events : List (RetryEvent ε)
  result : RetryResult α ε
  deriving DecidableEq, Repr

/-- The attempt loop of retry_with_backoff (core/utils.py lines 74-95),
by recursion on the number of remaining attempts.  The wrapped function
is modelled as a map from the zero-indexed attempt number to the
outcome of that call.  With one attempt remaining the code either
returns, or falls out of the loop and re-raises (a non-retryable
exception propagates directly, with the same observable trace).  With
two or more remaining, a retryable failure logs, records the on_retry
invocation point with argument attempt + 1, sleeps
backoff_factor ^ attempt seconds, and recurses. -/
def retryLoop (backoff : ℚ) (retryable : ε → Bool)
    (func : Nat → FuncOutcome α ε) : Nat → Nat → RetryTrace α ε
  | 0, _ => ⟨[], .raiseNoneTypeError⟩
  | 1, attempt =>
    match func attempt with
    | .ok v => ⟨[.call attempt], .ok v⟩
    | .raise e => ⟨[.call attempt], .raised e⟩
  | (r+2), attempt =>
    match func attempt with
    | .ok v => ⟨[.call attempt], .ok v⟩
    | .raise e =>
      if retryable e then
        let rest := retryLoop backoff retryable func (r+1) (attempt+1)
        ⟨.call attempt :: .onRetry (attempt+1) e :: .sleep (backoff ^ attempt)
          :: rest.events, rest.result⟩
      else
        ⟨[.call attempt], .raised e⟩

/-- retry_with_backoff (core/utils.py lines 61-98).  max_retries is a
Python int, so it may be non-positive; range(max_retries) is then empty
and the function falls through to raise last_exception with
last_exception = None. -/
def retry_with_backoff (max_retries : Int) (backoff : ℚ)
    (retryable : ε → Bool) (func : Nat → FuncOutcome α ε) : RetryTrace α ε :=
  retryLoop backoff retryable func max_retries.toNat 0

/-- Number of invocations of the wrapped function in a trace. -/
def callsOf (t : RetryTrace α ε) : Nat :=
  (t.events.filter (fun e => match e with | .call _ => true | _ => false)).length

/-- The backoff sleeps of a trace, in order. -/
def sleepsOf (t : RetryTrace α ε) : List ℚ :=
  t.events.filterMap (fun e => match e with | .sleep d => some d | _ => none)

/-- The on_retry invocation points of a trace, in order, with the
argument the code passes. -/
def onRetryCallsOf (t : RetryTrace α ε) : List (Nat × ε) :=
  t.events.filterMap (fun e => match e with | .onRetry a x => some (a, x) | _ => none)

/-- Checks that every on_retry invocation is immediately followed by a
backoff sleep of backoff ^ (arg - 1) seconds with arg at least one, and
that every sleep is immediately preceded by such an invocation. -/
def onRetryMatched (backoff : ℚ) : List (RetryEvent ε) → Bool
  | [] => true
  | .onRetry a _ :: .sleep d :: rest =>
    decide (1 ≤ a) && decide (d = backoff ^ (a - 1)) && onRetryMatched backoff rest
  | .onRetry _ _ :: _ => false
  | .sleep _ :: _ => false
  | .call _ :: rest => onRetryMatched backoff rest

/-- Exception model for the task executor: a ValueError raised by the
executor itself, or any other Exception, each carrying its message. -/
inductive Exc where
  | valueError (msg : String)
  | exc (msg : String)
  deriving DecidableEq, Repr

/-- str(e) for the modelled exceptions. -/
def Exc.str : Exc → String
  | .valueError m => m
  | .exc m => m

/-- Observable events of one run of LLMSenderApp.execute_task or
LLMSenderApp.execute_pack_task (main.py).  Send attempts record the
zero-based position of the notifier in its configured list, together
with the message and title passed to send. -/
inductive TaskEvent where
  | fetchEvt
  | summarizeEvt
  | sendAttempt (idx : Nat) (message : String) (title : String)
  | sendOk (idx : Nat)
  | sendFailed (idx : Nat)
  | sendError (idx : Nat) (e : Exc)
  | skipNoPlugin (idx : Nat)
  | errSendAttempt (idx : Nat) (message : String) (title : String)
  | errNotifyFailed (idx : Nat) (e : Exc)
  | notifySkipped
  | completedLog
  | failedLog (e : Exc)
  deriving DecidableEq, Repr

/-- One entry of a notifiers (or error_notifiers) list in the task
configuration: the value popped for the plugin key, the outcome of
PluginLoader.load_plugin for it, and the behaviour of the loaded
instance when send(message, title) is called. -/
structure NotifierSpec where
  plugin : Option String
  load : FuncOutcome Unit Exc
  send : String → String → FuncOutcome Bool Exc

/-- Environment of one invocation of execute_task: the task
configuration together with the behaviour of each plugin the executor
resolves.  contentLoad and llmLoad are the outcomes of the load_plugin
calls; fetchResult, promptResult and summarize the outcomes of the
corresponding plugin method calls. -/
structure TaskEnv where
  taskName : String
  title : Option String
  contentPlugin : Option String
  contentLoad : FuncOutcome Unit Exc
  fetchResult : FuncOutcome String Exc
  promptResult : FuncOutcome String Exc
  llmPlugin : Option String
  llmLoad : FuncOutcome Unit Exc
  summarize : String → String → FuncOutcome String Exc
  notifiers : List NotifierSpec
  errorNotifiers : List NotifierSpec

/-- The notifier fan-out loop of execute_task (main.py lines 129-152):
each entry without a plugin key is skipped with a warning; otherwise
load and send run inside a per-notifier try so an exception is logged
and the loop continues; a false return is logged as an error. -/
def notifyLoop (message title : String) : List NotifierSpec → Nat → List TaskEvent
  | [], _ => []
  | s :: rest, idx =>
    (match s.plugin with
     | none => [.skipNoPlugin idx]
     | some _ =>
       match s.load with
       | .raise e => [.sendError idx e]
       | .ok _ =>
         match s.send message title with
         | .ok true => [.sendAttempt idx message title, .sendOk idx]
         | .ok false => [.sendAttempt idx message title, .sendFailed idx]
         | .raise e => [.sendAttempt idx message title, .sendError idx e])
    ++ notifyLoop message title rest (idx + 1)

/-- The error-notifier loop of execute_task (main.py lines 160-175):
each entry runs inside its own try; a missing plugin key silently skips
the entry; a load or send exception is caught and logged; the boolean
returned by send is ignored. -/
def errNotifyLoop (message title : String) : List NotifierSpec → Nat → List TaskEvent
  | [], _ => []
  | s :: rest, idx =>
    (match s.plugin with
     | none => []
     | some _ =>
       match s.load with
       | .raise e => [.errNotifyFailed idx e]
       | .ok _ =>
         match s.send message title with
         | .ok _ => [.errSendAttempt idx message title]
         | .raise e => [.errSendAttempt idx message title, .errNotifyFailed idx e])
    ++ errNotifyLoop message title rest (idx + 1)

/-- The title passed to notifiers: task_config.get with default the
task name (main.py line 127). -/
def titleOf (env : TaskEnv) : String :=
  env.title.getD env.taskName

/-- The body of the outer try of execute_task (main.py lines 90-154):
the events it emits and, when a statement raises, the exception that
reaches the outer except.  A missing content or llm plugin key raises a
ValueError; fetch, get_prompt and summarize failures propagate; the
notifier loop never raises; the loop is followed by the completed log. -/
def taskBody (env : TaskEnv) : List TaskEvent × Option Exc :=
  match env.contentPlugin with
  | none => ([], some (.valueError "Content plugin not specified"))
  | some _ =>
    match env.contentLoad with
    | .raise e => ([], some e)
    | .ok _ =>
      match env.fetchResult with
      | .raise e => ([.fetchEvt], some e)
      | .ok content =>
        match env.promptResult with
        | .raise e => ([.fetchEvt], some e)
        | .ok prompt =>
          match env.llmPlugin with
          | none => ([.fetchEvt], some (.valueError "LLM plugin not specified"))
          | some _ =>
            match env.llmLoad with
            | .raise e => ([.fetchEvt], some e)
            | .ok _ =>
              match env.summarize prompt content with
              | .raise e => ([.fetchEvt, .summarizeEvt], some e)
              | .ok summary =>
                ([.fetchEvt, .summarizeEvt]
                  ++ notifyLoop summary (titleOf env) env.notifiers 0
                  ++ [.completedLog], none)

/-- Trace of one run of execute_task or execute_pack_task.  raisedOut
is the exception escaping the call, if any; locals records, for
execute_pack_task, the values of final_output and should_notify at the
notification step (none when the invocation failed before completing
that step). -/
structure TaskTrace where
  events : List TaskEvent
  locals : Option (String × Bool)
  raisedOut : Option Exc
  deriving DecidableEq, Repr

/-- LLMSenderApp.execute_task (main.py lines 85-175): the body runs
inside a try whose except logs the failure and fans out to the error
notifiers with the synthesized message Task failed: str(e) and title
Error: task name; every statement of that handler is inside a
per-notifier try, so nothing escapes the call. -/
def execute_task (env : TaskEnv) : TaskTrace :=
  match taskBody env with
  | (evs, none) => ⟨evs, none, none⟩
  | (evs, some e) =>
    ⟨evs ++ .failedLog e
        :: errNotifyLoop ("Task failed: " ++ e.str) ("Error: " ++ env.taskName)
             env.errorNotifiers 0,
      none, none⟩

/-- Result returned by an Action plugin process call
(core/interfaces.py, Action.process): the processed output, whether to
continue to notification, and a metadata map, modelled as an
association list. -/
structure ActionResult where
  output : String
  should_continue : Bool
  metadata : List (String × String)
  deriving DecidableEq, Repr

/-- Last-writer-wins merge of two metadata maps: entries of the second
map override same-key entries of the first. -/
def mergeMeta (m1 m2 : List (String × String)) : List (String × String) :=
  m1.filter (fun p => ¬ m2.any (fun q => q.1 = p.1)) ++ m2

/-- Modelled from the spec: core/action_system.py is imported by
main.py (get_action_pipeline) but is not present in the repository.
Section 4.4 of the specification defines execute as loading each
action in declared order, feeding each output to the next, halting on
the first should_continue false result whose output and metadata then
become the final result, merging metadata last-writer-wins across
executed actions otherwise, and returning the initial output with
should_continue true when the list is empty.  An action is modelled as
its process function with the context fixed; the second component
collects the zero-based indices of the executed actions in order. -/
def pipelineGo : List (String → ActionResult) → String → Nat → ActionResult × List Nat
  | [], out, _ => (⟨out, true, []⟩, [])
  | a :: rest, out, i =>
    let r := a out
    if r.should_continue then
      let (fin, idxs) := pipelineGo rest r.output (i + 1)
      if fin.should_continue then
        (⟨fin.output, true, mergeMeta r.metadata fin.metadata⟩, i :: idxs)
      else (fin, i :: idxs)
    else (r, [i])

/-- Modelled from the spec: entry point of the Action Pipeline of
section 4.4 (the absent core/action_system.py), see pipelineGo. -/
def execute_pipeline (actions : List (String → ActionResult)) (initial : String) :
    ActionResult × List Nat :=
  pipelineGo actions initial 0

/-- Environment of one invocation of execute_pack_task, for a task
configuration without a pack key (the pack branch only changes how
content providers and notifiers are constructed, not the stage order
or the gating).  Fields as in TaskEnv, plus the configured actions,
each modelled as its process function with the context fixed. -/
structure PackTaskEnv where
  taskName : String
  title : Option String
  contentPlugin : Option String
  contentLoad : FuncOutcome Unit Exc
  fetchResult : FuncOutcome String Exc
  promptResult : FuncOutcome String Exc
  llmPlugin : Option String
  llmLoad : FuncOutcome Unit Exc
  summarize : String → String → FuncOutcome String Exc
  actions : List (String → ActionResult)
  notifiers : List NotifierSpec
  errorNotifiers : List NotifierSpec

/-- The title for execute_pack_task (main.py line 259). -/
def packTitleOf (env : PackTaskEnv) : String :=
  env.title.getD env.taskName

/-- The notifier fan-out loop of execute_pack_task (main.py lines
261-290).  Unlike the loop of execute_task, here only the send call
(lines 282-290) runs inside the inner try: the load_plugin call at
lines 277-279 is outside it, so a notifier load exception escapes the
loop to the outer except, aborting the remaining notifiers.  The
second component is that escaping exception, if any.  An entry without
a plugin key is skipped with a warning; a loaded (hence truthy)
instance gets a send whose exception or False return is logged and
contained per notifier. -/
def packNotifyLoop (message title : String) :
    List NotifierSpec → Nat → List TaskEvent × Option Exc
  | [], _ => ([], none)
  | s :: rest, idx =>
    match s.plugin with
    | none =>
      let r := packNotifyLoop message title rest (idx + 1)
      (.skipNoPlugin idx :: r.1, r.2)
    | some _ =>
      match s.load with
      | .raise e => ([], some e)
      | .ok _ =>
        let r := packNotifyLoop message title rest (idx + 1)
        ((match s.send message title with
          | .ok true => [.sendAttempt idx message title, .sendOk idx]
          | .ok false => [.sendAttempt idx message title, .sendFailed idx]
          | .raise e => [.sendAttempt idx message title, .sendError idx e]) ++ r.1,
          r.2)

/-- The body of the outer try of execute_pack_task (main.py lines
182-294).  Steps 1-4 mirror taskBody.  Step 5: when the actions list
is non-empty the action pipeline runs and final_output and
should_notify take its result, otherwise they stay llm_output and
True.  Step 6: the notifier fan-out runs only when should_notify
holds, else the skip is logged; a notifier load exception escapes to
the outer except, so the completed log and the locals are only
reached when the loop finishes.  The middle component returns the
values of final_output and should_notify when step 6 completed. -/
def packBody (env : PackTaskEnv) : List TaskEvent × Option (String × Bool) × Option Exc :=
  match env.contentPlugin with
  | none => ([], none, some (.valueError "Content plugin not specified"))
  | some _ =>
    match env.contentLoad with
    | .raise e => ([], none, some e)
    | .ok _ =>
      match env.fetchResult with
      | .raise e => ([.fetchEvt], none, some e)
      | .ok content =>
        match env.promptResult with
        | .raise e => ([.fetchEvt], none, some e)
        | .ok prompt =>
          match env.llmPlugin with
          | none => ([.fetchEvt], none, some (.valueError "LLM plugin not specified"))
          | some _ =>
            match env.llmLoad with
            | .raise e => ([.fetchEvt], none, some e)
            | .ok _ =>
              match env.summarize prompt content with
              | .raise e => ([.fetchEvt, .summarizeEvt], none, some e)
              | .ok summary =>
                let (finalOutput, shouldNotify) :=
                  match env.actions with
                  | [] => (summary, true)
                  | a :: rest =>
                    let r := (execute_pipeline (a :: rest) summary).1
                    (r.output, r.should_continue)
                let nres :=
                  if shouldNotify then
                    packNotifyLoop finalOutput (packTitleOf env) env.notifiers 0
                  else ([.notifySkipped], none)
                match nres.2 with
                | some e => ([.fetchEvt, .summarizeEvt] ++ nres.1, none, some e)
                | none =>
                  ([.fetchEvt, .summarizeEvt] ++ nres.1 ++ [.completedLog],
                    some (finalOutput, shouldNotify), none)

/-- LLMSenderApp.execute_pack_task (main.py lines 177-310): the body
runs inside a try whose except handles error notifications exactly as
in execute_task; nothing escapes the call. -/
def execute_pack_task (env : PackTaskEnv) : TaskTrace :=
  match packBody env with
  | (evs, locals, none) => ⟨evs, locals, none⟩
  | (evs, _, some e) =>
    ⟨evs ++ .failedLog e
        :: errNotifyLoop ("Task failed: " ++ e.str) ("Error: " ++ env.taskName)
             env.errorNotifiers 0,
      none, none⟩

/-- A plugin module as PluginLoader.load_plugin observes it: whether
getattr(module, factory key, None) yields a truthy callable, and the
members listed by dir(module) in order, each tagged with whether it is
a type that subclasses the capability interface of the requested kind
and is not the interface itself. -/
structure PluginModule where
  hasCallableFactory : Bool
  members : List (String × Bool)
  deriving DecidableEq, Repr

/-- PluginLoader._find_plugin_class (core/plugin_loader.py lines
82-91): iterate the members in dir order and return the first whose
tag holds, or none. -/
def find_plugin_class : List (String × Bool) → Option String
  | [] => none
  | (n, b) :: rest => if b then some n else find_plugin_class rest

/-- How load_plugin resolved the plugin instance. -/
inductive LoadVia where
  | factory
  | cls (name : String)
  deriving DecidableEq, Repr

/-- Outcome of PluginLoader.load_plugin: an instance constructed via
the factory function or via a discovered class, or a raised
ValueError.  Import errors and exceptions raised by the constructor
itself are logged and re-raised unchanged (lines 75-80) and are not
part of the resolution logic modelled here. -/
inductive LoadOutcome where
  | loaded (via : LoadVia)
  | raisedValueError (msg : String)
  deriving DecidableEq, Repr

/-- PluginLoader.load_plugin (core/plugin_loader.py lines 48-80):
an unknown plugin type raises ValueError before any import; a truthy
callable factory export is called; otherwise the first interface
subclass found in the module is instantiated, and a ValueError is
raised when there is none. -/
def load_plugin (knownType : Bool) (m : PluginModule) : LoadOutcome :=
  if ¬ knownType then .raisedValueError "Unknown plugin type"
  else if m.hasCallableFactory then .loaded .factory
  else
    match find_plugin_class m.members with
    | some n => .loaded (.cls n)
    | none => .raisedValueError "No valid plugin class found"

/-- Outcome of one requests.post or requests.get call inside a
notifier send body: a response object, or a raised
requests.RequestException of type ε. -/
inductive PostResult (ρ ε : Type) where
  | resp (r : ρ)
  | exc (e : ε)

/-- The response as BarkNotifier.send observes it: statusExc is the
HTTPError response.raise_for_status raises on an error status (an
instance of requests.RequestException), none otherwise; code is the
code field of the parsed JSON body. -/
structure BarkResponse (ε : Type) where
  statusExc : Option ε
  code : Int

/-- The response as TelegramNotifier.send observes it: statusExc as in
BarkResponse; ok is the ok field of the parsed JSON body. -/
structure TelegramResponse (ε : Type) where
  statusExc : Option ε
  ok : Bool

/-- The body of BarkNotifier.send (message_notice/bark.py lines
26-65): the whole body is inside try/except requests.RequestException,
so a transport exception from the post call or from raise_for_status
is caught and converted to a False return; otherwise the result is
True exactly when the JSON code equals 200. -/
def bark_send (p : PostResult (BarkResponse ε) ε) : FuncOutcome Bool ε :=
  match p with
  | .exc _ => .ok false
  | .resp r =>
    match r.statusExc with
    | some _ => .ok false
    | none => .ok (decide (r.code = 200))

/-- The body of TelegramNotifier.send (message_notice/telegram.py
lines 25-60), with the same try/except requests.RequestException
structure as bark_send; the result is the ok field of the JSON body. -/
def telegram_send (p : PostResult (TelegramResponse ε) ε) : FuncOutcome Bool ε :=
  match p with
  | .exc _ => .ok false
  | .resp r =>
    match r.statusExc with
    | some _ => .ok false
    | none => .ok r.ok

/-- BarkNotifier.send as decorated by retry_with_backoff with
max_retries 3, the default backoff_factor 2.0 and
exceptions = (requests.RequestException,): every exception the
decorator can observe is a RequestException, so the retryable
predicate is constantly true.  The HTTP call of the i-th attempt is
posts i. -/
def bark_send_decorated (posts : Nat → PostResult (BarkResponse ε) ε) :
    RetryTrace Bool ε :=
  retry_with_backoff 3 2 (fun _ => true) (fun i => bark_send (posts i))

/-- TelegramNotifier.send as decorated by retry_with_backoff, see
bark_send_decorated. -/
def telegram_send_decorated (posts : Nat → PostResult (TelegramResponse ε) ε) :
    RetryTrace Bool ε :=
  retry_with_backoff 3 2 (fun _ => true) (fun i => telegram_send (posts i))

/-- A concrete task environment: both stages succeed, first notifier
send raises, second returns False. -/
def wEnvFanout : TaskEnv :=
  { taskName := "t", title := none,
    contentPlugin := some "x", contentLoad := .ok (),
    fetchResult := .ok "content", promptResult := .ok "prompt",
    llmPlugin := some "y", llmLoad := .ok (),
    summarize := fun _ _ => .ok "summary",
    notifiers := [⟨some "n1", .ok (), fun _ _ => .raise (.exc "boom")⟩,
                  ⟨some "n2", .ok (), fun _ _ => .ok false⟩],
    errorNotifiers := [] }

/-- A concrete task environment whose fetch raises; one error notifier
is configured and its send succeeds. -/
def wEnvFetchFail : TaskEnv :=
  { taskName := "t", title := none,
    contentPlugin := some "x", contentLoad := .ok (),
    fetchResult := .raise (.exc "network down"), promptResult := .ok "prompt",
    llmPlugin := some "y", llmLoad := .ok (),
    summarize := fun _ _ => .ok "summary",
    notifiers := [],
    errorNotifiers := [⟨some "n1", .ok (), fun _ _ => .ok true⟩] }

/-- A concrete pack-task environment with zero configured actions and
one notifier. -/
def wEnvPack : PackTaskEnv :=
  { taskName := "t", title := none,
    contentPlugin := some "x", contentLoad := .ok (),
    fetchResult := .ok "content", promptResult := .ok "prompt",
    llmPlugin := some "y", llmLoad := .ok (),
    summarize := fun _ _ => .ok "summary",
    actions := [],
    notifiers := [⟨some "n1", .ok (), fun _ _ => .ok true⟩],
    errorNotifiers := [] }

/-- Projection selecting the notifier send attempts of a trace: the
index of the notifier whose send was called. -/
def sendAttemptIdx : TaskEvent → Option Nat
  | .sendAttempt i _ _ => some i
  | _ => none

/-- Projection selecting the error-notifier send attempts of a
trace. -/
def errSendAttemptIdx : TaskEvent → Option Nat
  | .errSendAttempt i _ _ => some i
  | _ => none

lemma retryLoop_two_plus (backoff : ℚ) (retryable : ε → Bool)
    (func : Nat → FuncOutcome α ε) (r attempt : Nat) :
    retryLoop backoff retryable func (r+2) attempt =
      match func attempt with
      | .ok v => ⟨[.call attempt], .ok v⟩
      | .raise e =>
        if retryable e then
          let rest := retryLoop backoff retryable func (r+1) (attempt+1)
          ⟨.call attempt :: .onRetry (attempt+1) e :: .sleep (backoff ^ attempt)
            :: rest.events, rest.result⟩
        else
          ⟨[.call attempt], .raised e⟩ := rfl

lemma retryLoop_one (backoff : ℚ) (retryable : ε → Bool)
    (func : Nat → FuncOutcome α ε) (attempt : Nat) :
    retryLoop backoff retryable func 1 attempt =
      match func attempt with
      | .ok v => ⟨[.call attempt], .ok v⟩
      | .raise e => ⟨[.call attempt], .raised e⟩ := rfl

/-- C3: with max_retries three and backoff_factor two, an operation
raising a retryable exception on its first two calls and succeeding on
the third is invoked exactly three times, the wrapper sleeps
backoff ^ 0 seconds after the first failure and backoff ^ 1 after the
second, and the wrapper returns the success value. -/
theorem retry_fail_twice_succeed_third {α ε : Type}
    (func : Nat → FuncOutcome α ε) (retryable : ε → Bool) (e0 e1 : ε) (v : α)
    (h0 : func 0 = .raise e0) (hr0 : retryable e0 = true)
    (h1 : func 1 = .raise e1) (hr1 : retryable e1 = true)
    (h2 : func 2 = .ok v) :
    callsOf (retry_with_backoff 3 2 retryable func) = 3 ∧
    sleepsOf (retry_with_backoff 3 2 retryable func) =
      [(2:ℚ) ^ (0:ℕ), (2:ℚ) ^ (1:ℕ)] ∧
    (retry_with_backoff 3 2 retryable func).result = .ok v := by
  have key : retry_with_backoff 3 2 retryable func =
      ⟨[.call 0, .onRetry 1 e0, .sleep ((2:ℚ) ^ (0:ℕ)), .call 1, .onRetry 2 e1,
        .sleep ((2:ℚ) ^ (1:ℕ)), .call 2], .ok v⟩ := by
    show retryLoop 2 retryable func (1+2) 0 = _
    rw [retryLoop_two_plus, h0]
    simp only [hr0]
    rw [show (1:ℕ)+1 = 0+2 from rfl, retryLoop_two_plus, h1]
    simp [hr1, h2, retryLoop_one]
  rw [key]
  refine ⟨rfl, rfl, rfl⟩

/-- Closed instance of retry_fail_twice_succeed_third at a concrete
operation. -/
theorem retry_fail_twice_succeed_third_witness :
    callsOf (retry_with_backoff 3 2 (fun _ => true)
      (fun n => if n = 0 then FuncOutcome.raise 10
        else if n = 1 then FuncOutcome.raise 11 else FuncOutcome.ok (42:ℕ))) = 3 ∧
    sleepsOf (retry_with_backoff 3 2 (fun _ => true)
      (fun n => if n = 0 then FuncOutcome.raise 10
        else if n = 1 then FuncOutcome.raise 11 else FuncOutcome.ok (42:ℕ))) =
      [(2:ℚ) ^ (0:ℕ), (2:ℚ) ^ (1:ℕ)] ∧
    (retry_with_backoff 3 2 (fun _ => true)
      (fun n => if n = 0 then FuncOutcome.raise 10
        else if n = 1 then FuncOutcome.raise 11 else FuncOutcome.ok (42:ℕ))).result =
      .ok 42 :=
  retry_fail_twice_succeed_third _ (fun _ => true) 10 11 42 rfl rfl rfl rfl rfl

lemma retryLoop_all_fail (backoff : ℚ) (retryable : ε → Bool)
    (func : Nat → FuncOutcome α ε) (es : Nat → ε)
    (remaining attempt : Nat) (h1 : 1 ≤ remaining)
    (hf : ∀ j, j < remaining → func (attempt + j) = .raise (es (attempt + j)))
    (hr : ∀ j, j < remaining → retryable (es (attempt + j)) = true) :
    (retryLoop backoff retryable func remaining attempt).result =
      .raised (es (attempt + remaining - 1)) := by
  induction remaining generalizing attempt with
  | zero => omega
  | succ r ih =>
    cases r with
    | zero =>
      have h0 : func attempt = .raise (es attempt) := by simpa using hf 0 (by omega)
      rw [retryLoop_one, h0]
      simp
    | succ r' =>
      have h0 : func attempt = .raise (es attempt) := by simpa using hf 0 (by omega)
      have hr0 : retryable (es attempt) = true := by simpa using hr 0 (by omega)
      rw [retryLoop_two_plus, h0]
      simp only [hr0, if_true]
      have key := ih (attempt + 1) (by omega)
        (fun j hj => by
          have e : attempt + 1 + j = attempt + (j + 1) := by omega
          rw [e]; exact hf (j + 1) (by omega))
        (fun j hj => by
          have e : attempt + 1 + j = attempt + (j + 1) := by omega
          rw [e]; exact hr (j + 1) (by omega))
      rw [key]
      congr 2
      omega

/-- C4: when the wrapped operation raises a retryable exception on
every one of the max_retries attempts (max_retries at least one), the
wrapper re-raises exactly the exception of the last failed attempt,
unwrapped. -/
theorem retry_exhaust_reraises_last (maxr : Int) (backoff : ℚ)
    (retryable : ε → Bool) (func : Nat → FuncOutcome α ε) (es : Nat → ε)
    (h1 : 1 ≤ maxr)
    (hf : ∀ i, i < maxr.toNat → func i = .raise (es i))
    (hr : ∀ i, i < maxr.toNat → retryable (es i) = true) :
    (retry_with_backoff maxr backoff retryable func).result =
      .raised (es (maxr.toNat - 1)) := by
  unfold retry_with_backoff
  have := retryLoop_all_fail backoff retryable func es maxr.toNat 0 (by omega)
    (fun j hj => by simpa using hf j hj)
    (fun j hj => by simpa using hr j hj)
  simpa using this

/-- Closed instance of retry_exhaust_reraises_last: two attempts, two
distinct retryable failures, the second one re-raised. -/
theorem retry_exhaust_reraises_last_witness :
    (retry_with_backoff 2 2 (fun _ => true)
      (fun n => (FuncOutcome.raise (n + 100) : FuncOutcome Bool ℕ))).result =
      .raised 101 :=
  retry_exhaust_reraises_last 2 2 (fun _ => true) _ (fun n => n + 100)
    (by decide) (fun i _ => rfl) (fun i _ => rfl)

/-- C10: with a non-positive max_retries the attempt loop body never
runs, the operation is never invoked, and the wrapper reaches
raise last_exception with last_exception still None, which in Python
raises a TypeError rather than returning anything. -/
theorem retry_nonpositive_no_call (maxr : Int) (backoff : ℚ)
    (retryable : ε → Bool) (func : Nat → FuncOutcome α ε) (h : maxr ≤ 0) :
    retry_with_backoff maxr backoff retryable func = ⟨[], .raiseNoneTypeError⟩ ∧
    callsOf (retry_with_backoff maxr backoff retryable func) = 0 := by
  have ht : maxr.toNat = 0 := by omega
  unfold retry_with_backoff
  rw [ht]
  exact ⟨rfl, rfl⟩

/-- Closed instance of retry_nonpositive_no_call at max_retries 0,
for an operation that would succeed if it were ever called. -/
theorem retry_nonpositive_no_call_witness :
    retry_with_backoff 0 2 (fun _ => true)
      (fun _ => (FuncOutcome.ok 7 : FuncOutcome ℕ ℕ)) = ⟨[], .raiseNoneTypeError⟩ ∧
    callsOf (retry_with_backoff 0 2 (fun _ => true)
      (fun _ => (FuncOutcome.ok 7 : FuncOutcome ℕ ℕ))) = 0 :=
  retry_nonpositive_no_call 0 2 (fun _ => true) _ (by decide)

/-- C8, counterexample: an operation failing once then succeeding,
wrapped with max_retries 3 and backoff_factor 2.  The on_retry
invocation preceding the sleep of 2 ^ 0 seconds (whose zero-indexed
attempt exponent is 0) receives argument 1, and 1 is not 0: the code
passes attempt + 1, not the zero-indexed attempt number. -/
theorem retry_on_retry_arg_cex :
    (retry_with_backoff 3 2 (fun _ => true)
      (fun n => if n = 0 then FuncOutcome.raise () else FuncOutcome.ok true)).events =
      [.call 0, .onRetry 1 (), .sleep ((2:ℚ) ^ (0:ℕ)), .call 1] ∧ (1:ℕ) ≠ 0 := by
  constructor
  · show (retryLoop 2 (fun _ => true) _ (1+2) 0).events = _
    rw [retryLoop_two_plus]
    norm_num
    rw [show (2:ℕ) = 0+2 from rfl, retryLoop_two_plus]
    norm_num
  · decide

lemma onRetryMatched_retryLoop (backoff : ℚ) (retryable : ε → Bool)
    (func : Nat → FuncOutcome α ε) (remaining attempt : Nat) :
    onRetryMatched backoff (retryLoop backoff retryable func remaining attempt).events
      = true := by
  induction remaining generalizing attempt with
  | zero => rfl
  | succ r ih =>
    cases r with
    | zero =>
      rw [retryLoop_one]
      cases h : func attempt <;> simp [onRetryMatched]
    | succ r' =>
      rw [retryLoop_two_plus]
      cases h : func attempt with
      | ok v => simp [onRetryMatched]
      | raise e =>
        by_cases hre : retryable e
        · simp only [hre, if_true]
          simp [onRetryMatched]
          exact ih (attempt + 1)
        · simp [hre, onRetryMatched]

/-- C8, amended: whenever an on_retry callback is supplied and a
retryable failure occurs with retries remaining, on_retry is invoked
exactly once immediately before the backoff sleep for that failure,
and it receives the one-indexed attempt number: the sleep lasts
backoff_factor ^ (arg - 1) seconds, so the argument is the sleep
exponent plus one, never less than one. -/
theorem retry_on_retry_one_indexed (maxr : Int) (backoff : ℚ)
    (retryable : ε → Bool) (func : Nat → FuncOutcome α ε) :
    onRetryMatched backoff (retry_with_backoff maxr backoff retryable func).events
      = true :=
  onRetryMatched_retryLoop backoff retryable func maxr.toNat 0

/-- C9: a transport failure (requests.RequestException) on the first
HTTP call of BarkNotifier.send or TelegramNotifier.send is caught
inside the send body and converted to a False return, so the
surrounding retry decorator observes no exception: exactly one
attempt, no backoff sleep, and a False result. -/
theorem notifier_transport_failure_contained :
    (∀ (ε : Type) (posts : Nat → PostResult (BarkResponse ε) ε) (e : ε),
      posts 0 = .exc e →
      callsOf (bark_send_decorated posts) = 1 ∧
      sleepsOf (bark_send_decorated posts) = [] ∧
      (bark_send_decorated posts).result = .ok false) ∧
    (∀ (ε : Type) (posts : Nat → PostResult (TelegramResponse ε) ε) (e : ε),
      posts 0 = .exc e →
      callsOf (telegram_send_decorated posts) = 1 ∧
      sleepsOf (telegram_send_decorated posts) = [] ∧
      (telegram_send_decorated posts).result = .ok false) := by
  constructor
  · intro ε posts e hp
    have key : bark_send_decorated posts = ⟨[.call 0], .ok false⟩ := by
      show retryLoop 2 (fun _ => true) (fun i => bark_send (posts i)) (1+2) 0 = _
      rw [retryLoop_two_plus]
      have h0 : bark_send (posts 0) = .ok false := by rw [hp]; rfl
      rw [h0]
    rw [key]
    exact ⟨rfl, rfl, rfl⟩
  · intro ε posts e hp
    have key : telegram_send_decorated posts = ⟨[.call 0], .ok false⟩ := by
      show retryLoop 2 (fun _ => true) (fun i => telegram_send (posts i)) (1+2) 0 = _
      rw [retryLoop_two_plus]
      have h0 : telegram_send (posts 0) = .ok false := by rw [hp]; rfl
      rw [h0]
    rw [key]
    exact ⟨rfl, rfl, rfl⟩

/-- Closed instance of notifier_transport_failure_contained for both
notifiers, with every HTTP call failing at transport level. -/
theorem notifier_transport_failure_contained_witness :
    (callsOf (bark_send_decorated (fun _ => (PostResult.exc () :
        PostResult (BarkResponse Unit) Unit))) = 1 ∧
      sleepsOf (bark_send_decorated (fun _ => (PostResult.exc () :
        PostResult (BarkResponse Unit) Unit))) = [] ∧
      (bark_send_decorated (fun _ => (PostResult.exc () :
        PostResult (BarkResponse Unit) Unit))).result = .ok false) ∧
    (callsOf (telegram_send_decorated (fun _ => (PostResult.exc () :
        PostResult (TelegramResponse Unit) Unit))) = 1 ∧
      sleepsOf (telegram_send_decorated (fun _ => (PostResult.exc () :
        PostResult (TelegramResponse Unit) Unit))) = [] ∧
      (telegram_send_decorated (fun _ => (PostResult.exc () :
        PostResult (TelegramResponse Unit) Unit))).result = .ok false) :=
  ⟨notifier_transport_failure_contained.1 Unit _ () rfl,
   notifier_transport_failure_contained.2 Unit _ () rfl⟩

lemma notifyLoop_attempts (message title : String) (specs : List NotifierSpec) :
    ∀ (i : Nat), (∀ s ∈ specs, s.plugin.isSome ∧ s.load = .ok ()) →
    (notifyLoop message title specs i).filterMap sendAttemptIdx =
      List.range' i specs.length := by
  induction specs with
  | nil => intro i _; rfl
  | cons s rest ih =>
    intro i h
    obtain ⟨hplug, hload⟩ := h s (by simp)
    obtain ⟨p, hp⟩ := Option.isSome_iff_exists.mp hplug
    have ihrec := ih (i + 1) (fun x hx => h x (by simp [hx]))
    cases hsend : s.send message title with
    | ok b =>
      cases b <;>
        simp [notifyLoop, hp, hload, hsend, sendAttemptIdx, ihrec, List.range']
    | raise e =>
      simp [notifyLoop, hp, hload, hsend, sendAttemptIdx, ihrec, List.range']

lemma notifyLoop_no_failedLog (message title : String) (specs : List NotifierSpec) :
    ∀ (i : Nat) (e : Exc), TaskEvent.failedLog e ∉ notifyLoop message title specs i := by
  induction specs with
  | nil => intro i e h; simp [notifyLoop] at h
  | cons s rest ih =>
    intro i e h
    rcases hp : s.plugin with _ | p
    · simp [notifyLoop, hp] at h
      exact ih (i + 1) e h
    · rcases hl : s.load with _ | e2
      · rcases hsend : s.send message title with b | e3
        · cases b <;>
            · simp [notifyLoop, hp, hl, hsend] at h
              exact ih (i + 1) e h
        · simp [notifyLoop, hp, hl, hsend] at h
          exact ih (i + 1) e h
      · simp [notifyLoop, hp, hl] at h
        exact ih (i + 1) e h

lemma errNotifyLoop_attempts (message title : String) (specs : List NotifierSpec) :
    ∀ (i : Nat), (∀ s ∈ specs, s.plugin.isSome ∧ s.load = .ok ()) →
    (errNotifyLoop message title specs i).filterMap errSendAttemptIdx =
      List.range' i specs.length := by
  induction specs with
  | nil => intro i _; rfl
  | cons s rest ih =>
    intro i h
    obtain ⟨hplug, hload⟩ := h s (by simp)
    obtain ⟨p, hp⟩ := Option.isSome_iff_exists.mp hplug
    have ihrec := ih (i + 1) (fun x hx => h x (by simp [hx]))
    cases hsend : s.send message title with
    | ok b =>
      simp [errNotifyLoop, hp, hload, hsend, errSendAttemptIdx, ihrec, List.range']
    | raise e =>
      simp [errNotifyLoop, hp, hload, hsend, errSendAttemptIdx, ihrec, List.range']

lemma errNotifyLoop_msg (message title : String) (specs : List NotifierSpec) :
    ∀ (i : Nat) (j : Nat) (m t : String),
    TaskEvent.errSendAttempt j m t ∈ errNotifyLoop message title specs i →
    m = message ∧ t = title := by
  induction specs with
  | nil => intro i j m t h; simp [errNotifyLoop] at h
  | cons s rest ih =>
    intro i j m t h
    rcases hp : s.plugin with _ | p
    · simp [errNotifyLoop, hp] at h
      exact ih (i + 1) j m t h
    · rcases hl : s.load with _ | e2
      · rcases hsend : s.send message title with b | e3
        · simp [errNotifyLoop, hp, hl, hsend] at h
          rcases h with ⟨_, rfl, rfl⟩ | h
          · exact ⟨rfl, rfl⟩
          · exact ih (i + 1) j m t h
        · simp [errNotifyLoop, hp, hl, hsend] at h
          rcases h with ⟨_, rfl, rfl⟩ | h
          · exact ⟨rfl, rfl⟩
          · exact ih (i + 1) j m t h
      · simp [errNotifyLoop, hp, hl] at h
        exact ih (i + 1) j m t h

/-- C1: once fetch and summarize succeed, the notifier fan-out
attempts send on every configured notifier, in declared order, no
matter whether individual sends raise or return False (their outcomes
are unconstrained here), and the task is logged as completed, never as
failed; nothing escapes the call. -/
theorem execute_task_notifier_fanout (env : TaskEnv)
    (cp lp content prompt summary : String)
    (h1 : env.contentPlugin = some cp) (h2 : env.contentLoad = .ok ())
    (h3 : env.fetchResult = .ok content) (h4 : env.promptResult = .ok prompt)
    (h5 : env.llmPlugin = some lp) (h6 : env.llmLoad = .ok ())
    (h7 : env.summarize prompt content = .ok summary)
    (h8 : ∀ s ∈ env.notifiers, s.plugin.isSome ∧ s.load = .ok ()) :
    (execute_task env).events.filterMap sendAttemptIdx =
      List.range env.notifiers.length ∧
    TaskEvent.completedLog ∈ (execute_task env).events ∧
    (∀ e, TaskEvent.failedLog e ∉ (execute_task env).events) ∧
    (execute_task env).raisedOut = none := by
  have hb : taskBody env =
      ([.fetchEvt, .summarizeEvt]
        ++ notifyLoop summary (titleOf env) env.notifiers 0
        ++ [.completedLog], none) := by
    simp only [taskBody, h1, h2, h3, h4, h5, h6, h7]
  have key : execute_task env =
      ⟨[.fetchEvt, .summarizeEvt]
        ++ notifyLoop summary (titleOf env) env.notifiers 0
        ++ [.completedLog], none, none⟩ := by
    unfold execute_task
    rw [hb]
  rw [key]
  refine ⟨?_, ?_, ?_, rfl⟩
  · simp [List.filterMap_append, sendAttemptIdx,
      notifyLoop_attempts summary (titleOf env) env.notifiers 0 h8,
      List.range_eq_range']
  · simp
  · intro e
    simp [notifyLoop_no_failedLog summary (titleOf env) env.notifiers 0 e]

/-- Closed instance of execute_task_notifier_fanout: two notifiers,
the first send raises, the second returns False; both are attempted
and the task completes. -/
theorem execute_task_notifier_fanout_witness :
    (execute_task wEnvFanout).events.filterMap sendAttemptIdx =
      List.range wEnvFanout.notifiers.length ∧
    TaskEvent.completedLog ∈ (execute_task wEnvFanout).events ∧
    (∀ e, TaskEvent.failedLog e ∉ (execute_task wEnvFanout).events) ∧
    (execute_task wEnvFanout).raisedOut = none :=
  execute_task_notifier_fanout wEnvFanout "x" "y" "content" "prompt" "summary"
    rfl rfl rfl rfl rfl rfl rfl
    (by intro s hs
        simp [wEnvFanout] at hs
        rcases hs with rfl | rfl <;> exact ⟨rfl, rfl⟩)

lemma taskBody_fail_events (env : TaskEnv) (evs : List TaskEvent) (e : Exc)
    (h : taskBody env = (evs, some e)) :
    ∀ x ∈ evs, x = TaskEvent.fetchEvt ∨ x = TaskEvent.summarizeEvt := by
  unfold taskBody at h
  repeat' split at h
  all_goals rw [Prod.mk.injEq] at h
  all_goals first
    | (obtain ⟨rfl, -⟩ := h; decide)
    | exact absurd h.2 (by simp)

/-- C2: whenever any stage of the task body raises (in particular a
fetch or summarize failure), execute_task catches the exception at its
boundary, logs the failure, and attempts send on every configured
error notifier with the synthesized message Task failed: str(e) and
title Error: task name; no exception, not even one raised by an error
notifier, escapes the call. -/
theorem execute_task_error_containment (env : TaskEnv)
    (evs : List TaskEvent) (e : Exc)
    (hfail : taskBody env = (evs, some e))
    (h8 : ∀ s ∈ env.errorNotifiers, s.plugin.isSome ∧ s.load = .ok ()) :
    (execute_task env).raisedOut = none ∧
    TaskEvent.failedLog e ∈ (execute_task env).events ∧
    (execute_task env).events.filterMap errSendAttemptIdx =
      List.range env.errorNotifiers.length ∧
    (∀ j m t, TaskEvent.errSendAttempt j m t ∈ (execute_task env).events →
      m = "Task failed: " ++ e.str ∧ t = "Error: " ++ env.taskName) := by
  have key : execute_task env =
      ⟨evs ++ .failedLog e
          :: errNotifyLoop ("Task failed: " ++ e.str) ("Error: " ++ env.taskName)
               env.errorNotifiers 0,
        none, none⟩ := by
    unfold execute_task
    rw [hfail]
  have hshape := taskBody_fail_events env evs e hfail
  rw [key]
  refine ⟨rfl, by simp, ?_, ?_⟩
  · have hevs : evs.filterMap errSendAttemptIdx = [] := by
      rw [List.filterMap_eq_nil_iff]
      intro x hx
      rcases hshape x hx with rfl | rfl <;> rfl
    simp [List.filterMap_append, hevs, errSendAttemptIdx,
      errNotifyLoop_attempts _ _ env.errorNotifiers 0 h8,
      List.range_eq_range']
  · intro j m t hmem
    simp only [List.mem_append, List.mem_cons] at hmem
    rcases hmem with hmem | hmem | hmem
    · rcases hshape _ hmem with h | h <;> exact absurd h (by simp)
    · exact absurd hmem (by simp)
    · exact errNotifyLoop_msg _ _ env.errorNotifiers 0 j m t hmem

/-- Closed instance of execute_task_error_containment: fetch raises,
the single error notifier is invoked with the synthesized message. -/
theorem execute_task_error_containment_witness :
    (execute_task wEnvFetchFail).raisedOut = none ∧
    TaskEvent.failedLog (.exc "network down") ∈ (execute_task wEnvFetchFail).events ∧
    (execute_task wEnvFetchFail).events.filterMap errSendAttemptIdx =
      List.range wEnvFetchFail.errorNotifiers.length ∧
    (∀ j m t, TaskEvent.errSendAttempt j m t ∈ (execute_task wEnvFetchFail).events →
      m = "Task failed: " ++ (Exc.exc "network down").str ∧
      t = "Error: " ++ wEnvFetchFail.taskName) :=
  execute_task_error_containment wEnvFetchFail [.fetchEvt] (.exc "network down")
    rfl
    (by intro s hs
        simp [wEnvFetchFail] at hs
        subst hs
        exact ⟨rfl, rfl⟩)

lemma notifyLoop_msg (message title : String) (specs : List NotifierSpec) :
    ∀ (i : Nat) (j : Nat) (m t : String),
    TaskEvent.sendAttempt j m t ∈ notifyLoop message title specs i →
    m = message ∧ t = title := by
  induction specs with
  | nil => intro i j m t h; simp [notifyLoop] at h
  | cons s rest ih =>
    intro i j m t h
    rcases hp : s.plugin with _ | p
    · simp [notifyLoop, hp] at h
      exact ih (i + 1) j m t h
    · rcases hl : s.load with _ | e2
      · rcases hsend : s.send message title with b | e3
        · cases b <;>
            · simp [notifyLoop, hp, hl, hsend] at h
              rcases h with ⟨_, rfl, rfl⟩ | h
              · exact ⟨rfl, rfl⟩
              · exact ih (i + 1) j m t h
        · simp [notifyLoop, hp, hl, hsend] at h
          rcases h with ⟨_, rfl, rfl⟩ | h
          · exact ⟨rfl, rfl⟩
          · exact ih (i + 1) j m t h
      · simp [notifyLoop, hp, hl] at h
        exact ih (i + 1) j m t h

/-- C6 (the Action Pipeline is modelled from the spec, see
pipelineGo): in an action chain of three actions where the second is
the first to return should_continue false, the third never executes,
actions execute in declared order up to the halt, and the final
output, flag and metadata are exactly the second action's result. -/
theorem execute_pipeline_short_circuit
    (A B C : String → ActionResult) (input : String)
    (hA : (A input).should_continue = true)
    (hB : (B ((A input).output)).should_continue = false) :
    execute_pipeline [A, B, C] input = (B ((A input).output), [0, 1]) := by
  simp [execute_pipeline, pipelineGo, hA, hB]

/-- Closed instance of execute_pipeline_short_circuit. -/
theorem execute_pipeline_short_circuit_witness :
    execute_pipeline
      [fun s => ⟨s ++ "A", true, [("a", "1")]⟩,
       fun _ => ⟨"halted", false, [("b", "2")]⟩,
       fun s => ⟨s ++ "C", true, [("c", "3")]⟩] "in" =
      (⟨"halted", false, [("b", "2")]⟩, [0, 1]) :=
  execute_pipeline_short_circuit
    (fun s => ⟨s ++ "A", true, [("a", "1")]⟩)
    (fun _ => ⟨"halted", false, [("b", "2")]⟩)
    (fun s => ⟨s ++ "C", true, [("c", "3")]⟩) "in" rfl rfl

lemma packNotifyLoop_ok (message title : String) (specs : List NotifierSpec) :
    ∀ (i : Nat), (∀ s ∈ specs, s.plugin.isSome → s.load = .ok ()) →
    (packNotifyLoop message title specs i).2 = none := by
  induction specs with
  | nil => intro i _; rfl
  | cons s rest ih =>
    intro i h
    have ihrec := ih (i + 1) (fun x hx => h x (by simp [hx]))
    rcases hp : s.plugin with _ | p
    · simp [packNotifyLoop, hp, ihrec]
    · have hl : s.load = .ok () := h s (by simp) (by simp [hp])
      rcases hsend : s.send message title with b | e3
      · cases b <;> simp [packNotifyLoop, hp, hl, hsend, ihrec]
      · simp [packNotifyLoop, hp, hl, hsend, ihrec]

lemma packNotifyLoop_msg (message title : String) (specs : List NotifierSpec) :
    ∀ (i j : Nat) (m t : String),
    TaskEvent.sendAttempt j m t ∈ (packNotifyLoop message title specs i).1 →
    m = message ∧ t = title := by
  induction specs with
  | nil => intro i j m t h; simp [packNotifyLoop] at h
  | cons s rest ih =>
    intro i j m t h
    rcases hp : s.plugin with _ | p
    · simp [packNotifyLoop, hp] at h
      exact ih (i + 1) j m t h
    · rcases hl : s.load with _ | e2
      · rcases hsend : s.send message title with b | e3
        · cases b <;>
            · simp [packNotifyLoop, hp, hl, hsend] at h
              rcases h with ⟨_, rfl, rfl⟩ | h
              · exact ⟨rfl, rfl⟩
              · exact ih (i + 1) j m t h
        · simp [packNotifyLoop, hp, hl, hsend] at h
          rcases h with ⟨_, rfl, rfl⟩ | h
          · exact ⟨rfl, rfl⟩
          · exact ih (i + 1) j m t h
      · simp [packNotifyLoop, hp, hl] at h

/-- C7: on the success path of execute_pack_task, with zero configured
actions and every notifier whose plugin key is present loading
successfully (a notifier load exception is NOT contained here: it
escapes the fan-out loop to the outer except), the notification step
receives the raw LLM output unchanged and should_notify is True
(every notifier send attempt carries exactly that output); and
whenever the action pipeline result has should_continue False, no
notifier is touched at all and the skip is logged. -/
theorem execute_pack_task_gating (env : PackTaskEnv)
    (cp lp content prompt summary : String)
    (h1 : env.contentPlugin = some cp) (h2 : env.contentLoad = .ok ())
    (h3 : env.fetchResult = .ok content) (h4 : env.promptResult = .ok prompt)
    (h5 : env.llmPlugin = some lp) (h6 : env.llmLoad = .ok ())
    (h7 : env.summarize prompt content = .ok summary) :
    (env.actions = [] →
      (∀ s ∈ env.notifiers, s.plugin.isSome → s.load = .ok ()) →
      (execute_pack_task env).locals = some (summary, true) ∧
      (∀ j m t, TaskEvent.sendAttempt j m t ∈ (execute_pack_task env).events →
        m = summary)) ∧
    (∀ a rest, env.actions = a :: rest →
      (execute_pipeline (a :: rest) summary).1.should_continue = false →
      (∀ j m t, TaskEvent.sendAttempt j m t ∉ (execute_pack_task env).events) ∧
      TaskEvent.notifySkipped ∈ (execute_pack_task env).events) := by
  constructor
  · intro hacts h8
    have hok : (packNotifyLoop summary (packTitleOf env) env.notifiers 0).2 = none :=
      packNotifyLoop_ok summary (packTitleOf env) env.notifiers 0 h8
    have hb : packBody env =
        ([.fetchEvt, .summarizeEvt]
          ++ (packNotifyLoop summary (packTitleOf env) env.notifiers 0).1
          ++ [.completedLog], some (summary, true), none) := by
      simp only [packBody, h1, h2, h3, h4, h5, h6, h7, hacts]
      simp [hok]
    have key : execute_pack_task env =
        ⟨[.fetchEvt, .summarizeEvt]
          ++ (packNotifyLoop summary (packTitleOf env) env.notifiers 0).1
          ++ [.completedLog], some (summary, true), none⟩ := by
      unfold execute_pack_task
      rw [hb]
    rw [key]
    refine ⟨rfl, ?_⟩
    intro j m t hmem
    have hnl : TaskEvent.sendAttempt j m t ∈
        (packNotifyLoop summary (packTitleOf env) env.notifiers 0).1 := by
      simpa using hmem
    exact (packNotifyLoop_msg summary (packTitleOf env) env.notifiers 0 j m t hnl).1
  · intro a rest hacts hsc
    have hb : packBody env =
        ([.fetchEvt, .summarizeEvt, .notifySkipped, .completedLog],
          some ((execute_pipeline (a :: rest) summary).1.output, false), none) := by
      simp only [packBody, h1, h2, h3, h4, h5, h6, h7, hacts, hsc]
      simp
    have key : execute_pack_task env =
        ⟨[.fetchEvt, .summarizeEvt, .notifySkipped, .completedLog],
          some ((execute_pipeline (a :: rest) summary).1.output, false), none⟩ := by
      unfold execute_pack_task
      rw [hb]
    rw [key]
    constructor
    · intro j m t hmem
      simp at hmem
    · simp

/-- Closed instance of execute_pack_task_gating at a concrete
environment with no actions. -/
theorem execute_pack_task_gating_witness :
    (wEnvPack.actions = [] →
      (∀ s ∈ wEnvPack.notifiers, s.plugin.isSome → s.load = .ok ()) →
      (execute_pack_task wEnvPack).locals = some ("summary", true) ∧
      (∀ j m t, TaskEvent.sendAttempt j m t ∈ (execute_pack_task wEnvPack).events →
        m = "summary")) ∧
    (∀ a rest, wEnvPack.actions = a :: rest →
      (execute_pipeline (a :: rest) "summary").1.should_continue = false →
      (∀ j m t, TaskEvent.sendAttempt j m t ∉ (execute_pack_task wEnvPack).events) ∧
      TaskEvent.notifySkipped ∈ (execute_pack_task wEnvPack).events) :=
  execute_pack_task_gating wEnvPack "x" "y" "content" "prompt" "summary"
    rfl rfl rfl rfl rfl rfl rfl

lemma find_plugin_class_first (pre post : List (String × Bool)) (n : String)
    (hpre : ∀ p ∈ pre, p.2 = false) :
    find_plugin_class (pre ++ (n, true) :: post) = some n := by
  induction pre with
  | nil => simp [find_plugin_class]
  | cons q rest ih =>
    have hq : q.2 = false := hpre q (by simp)
    rw [List.cons_append]
    rw [show q = (q.1, q.2) from rfl, find_plugin_class]
    rw [hq]
    simpa using ih (fun p hp => hpre p (by simp [hp]))

lemma find_plugin_class_none (pre : List (String × Bool))
    (hpre : ∀ p ∈ pre, p.2 = false) :
    find_plugin_class pre = none := by
  induction pre with
  | nil => rfl
  | cons q rest ih =>
    have hq : q.2 = false := hpre q (by simp)
    rw [show q = (q.1, q.2) from rfl, find_plugin_class]
    rw [hq]
    simpa using ih (fun p hp => hpre p (by simp [hp]))

/-- C5, counterexample: a module without a factory export whose member
scan finds TWO classes implementing the capability interface does not
fail; load_plugin succeeds and instantiates the first one in dir
order, contradicting the requirement of exactly one candidate. -/
theorem load_plugin_multiple_candidates_cex :
    load_plugin true ⟨false, [("AClass", true), ("BClass", true)]⟩ =
      .loaded (.cls "AClass") := rfl

/-- C5, amended: resolution order of load_plugin: an unknown kind
raises ValueError before anything else; a truthy callable factory
export is always used; otherwise the first member in dir order that
is a class implementing the interface is instantiated, even when
several match; only a module with no matching member (and no factory)
raises ValueError. -/
theorem load_plugin_resolution_amended (m : PluginModule)
    (pre post : List (String × Bool)) (n : String)
    (hpre : ∀ p ∈ pre, p.2 = false) :
    load_plugin false m = .raisedValueError "Unknown plugin type" ∧
    (m.hasCallableFactory = true → load_plugin true m = .loaded .factory) ∧
    load_plugin true ⟨false, pre ++ (n, true) :: post⟩ = .loaded (.cls n) ∧
    load_plugin true ⟨false, pre⟩ =
      .raisedValueError "No valid plugin class found" := by
  refine ⟨rfl, ?_, ?_, ?_⟩
  · intro hf
    simp [load_plugin, hf]
  · simp [load_plugin, find_plugin_class_first pre post n hpre]
  · simp [load_plugin, find_plugin_class_none pre hpre]

/-- Closed instance of load_plugin_resolution_amended: one
non-matching member before the matching one, another matching member
after it. -/
theorem load_plugin_resolution_amended_witness :
    load_plugin false ⟨true, []⟩ = .raisedValueError "Unknown plugin type" ∧
    ((⟨true, []⟩ : PluginModule).hasCallableFactory = true →
      load_plugin true ⟨true, []⟩ = .loaded .factory) ∧
    load_plugin true ⟨false, [("Alpha", false)] ++ ("Beta", true) :: [("Gamma", true)]⟩ =
      .loaded (.cls "Beta") ∧
    load_plugin true ⟨false, [("Alpha", false)]⟩ =
      .raisedValueError "No valid plugin class found" :=
  load_plugin_resolution_amended ⟨true, []⟩ [("Alpha", false)] [("Gamma", true)]
    "Beta" (by decide)

end LLMSender
